import Mathlib

/-!
# Verification of the Tourism-Scraper repository against its specification

Shallow embedding of the two source files `api_access.py` and
`handle_database.py`.  Python floats are modelled as rationals (`ℚ`);
Python's `round(x, 2)` is modelled as exact decimal rounding half-to-even
(banker's rounding, Python's documented tie-breaking rule).  Filesystem
state (the `weather_files` cache directory) is modelled as the list of
filenames it contains, and network traffic as an explicit list of HTTP
responses consumed by the retry loop.
-/

/-! ## Rounding: Python `round(x, 2)` -/

/-- Round a rational to the nearest integer, ties to even
(Python's `round` tie-breaking rule). -/
def round_half_even (x : ℚ) : ℤ :=
  let f := ⌊x⌋
  if x - f < 1 / 2 then f
  else if x - f > 1 / 2 then f + 1
  else if f % 2 = 0 then f else f + 1

/-- Python `round(x, 2)`: round to two decimal places. -/
def round2 (x : ℚ) : ℚ :=
  (round_half_even (x * 100) : ℚ) / 100

/-! ## `get_annual_data` (api_access.py lines 24-35)

pandas column aggregates, translated for a non-empty column:
`.min()` / `.max()` fold the binary min/max over the column,
`.sum()` folds addition starting at 0, `.mean()` is sum / length.
(pandas returns NaN for min/max/mean of an empty column; the embedding
is used, and the theorems are stated, only for non-empty columns.) -/

/-- pandas `Series.min` on a non-empty column (0 as a junk value for `[]`). -/
def seriesMin : List ℚ → ℚ
  | [] => 0
  | x :: xs => xs.foldl min x

/-- pandas `Series.max` on a non-empty column (0 as a junk value for `[]`). -/
def seriesMax : List ℚ → ℚ
  | [] => 0
  | x :: xs => xs.foldl max x

/-- pandas `Series.sum`. -/
def seriesSum (l : List ℚ) : ℚ :=
  l.foldl (· + ·) 0

/-- pandas `Series.mean` on a non-empty column. -/
def seriesMean (l : List ℚ) : ℚ :=
  seriesSum l / l.length

/-- The daily dataframe consumed by `get_annual_data`: the four named
columns requested from the weather API, each a date-aligned list. -/
structure DailyDataDf where
  temperature_2m_min : List ℚ
  temperature_2m_max : List ℚ
  temperature_2m_mean : List ℚ
  precipitation_sum : List ℚ
deriving DecidableEq, Repr

/-- The `pd.Series` returned by `get_annual_data`, with its four index
labels as fields. -/
structure AnnualWeatherSummary where
  min_temp : ℚ
  max_temp : ℚ
  mean_temp : ℚ
  total_precipitation : ℚ
deriving DecidableEq, Repr

/-- `get_annual_data` (api_access.py 24-35): aggregates the daily
dataframe into the four annual statistics, each rounded to 2 decimals. -/
def get_annual_data (daily_data_df : DailyDataDf) : AnnualWeatherSummary :=
  { min_temp := round2 (seriesMin daily_data_df.temperature_2m_min)
    max_temp := round2 (seriesMax daily_data_df.temperature_2m_max)
    mean_temp := round2 (seriesMean daily_data_df.temperature_2m_mean)
    total_precipitation := round2 (seriesSum daily_data_df.precipitation_sum) }

/-! ## Aggregation lemmas -/

theorem foldl_add_eq_add_sum (a : ℚ) (l : List ℚ) : l.foldl (· + ·) a = a + l.sum := by
  induction l generalizing a with
  | nil => simp
  | cons x xs ih => simp [ih, add_assoc]

theorem seriesSum_eq_sum (l : List ℚ) : seriesSum l = l.sum := by
  simp [seriesSum, foldl_add_eq_add_sum]

theorem foldl_min_le_init (a : ℚ) (l : List ℚ) : l.foldl min a ≤ a := by
  induction l generalizing a with
  | nil => exact le_refl a
  | cons x xs ih => exact le_trans (ih (min a x)) (min_le_left a x)

theorem foldl_min_le_mem (a v : ℚ) (l : List ℚ) (hv : v ∈ l) : l.foldl min a ≤ v := by
  induction l generalizing a with
  | nil => cases hv
  | cons x xs ih =>
    rcases List.mem_cons.mp hv with rfl | hv'
    · exact le_trans (foldl_min_le_init (min a v) xs) (min_le_right a v)
    · exact ih (min a x) hv'

theorem foldl_min_mem (a : ℚ) (l : List ℚ) : l.foldl min a = a ∨ l.foldl min a ∈ l := by
  induction l generalizing a with
  | nil => exact Or.inl rfl
  | cons x xs ih =>
    rcases ih (min a x) with h | h
    · rcases min_choice a x with hm | hm
      · exact Or.inl (by rw [List.foldl_cons, h, hm])
      · exact Or.inr (by rw [List.foldl_cons, h, hm]; exact List.mem_cons_self x xs)
    · exact Or.inr (List.mem_cons_of_mem x h)

theorem seriesMin_le (v : ℚ) (l : List ℚ) (hv : v ∈ l) : seriesMin l ≤ v := by
  match l with
  | [] => cases hv
  | x :: xs =>
    rcases List.mem_cons.mp hv with rfl | hv'
    · exact foldl_min_le_init v xs
    · exact foldl_min_le_mem x v xs hv'

theorem seriesMin_mem (l : List ℚ) (hl : l ≠ []) : seriesMin l ∈ l := by
  match l with
  | [] => exact absurd rfl hl
  | x :: xs =>
    show xs.foldl min x ∈ x :: xs
    rcases foldl_min_mem x xs with h | h
    · rw [h]; exact List.mem_cons_self x xs
    · exact List.mem_cons_of_mem x h

theorem foldl_max_init_le (a : ℚ) (l : List ℚ) : a ≤ l.foldl max a := by
  induction l generalizing a with
  | nil => exact le_refl a
  | cons x xs ih => exact le_trans (le_max_left a x) (ih (max a x))

theorem foldl_max_mem_le (a v : ℚ) (l : List ℚ) (hv : v ∈ l) : v ≤ l.foldl max a := by
  induction l generalizing a with
  | nil => cases hv
  | cons x xs ih =>
    rcases List.mem_cons.mp hv with rfl | hv'
    · exact le_trans (le_max_right a v) (foldl_max_init_le (max a v) xs)
    · exact ih (max a x) hv'

theorem foldl_max_mem (a : ℚ) (l : List ℚ) : l.foldl max a = a ∨ l.foldl max a ∈ l := by
  induction l generalizing a with
  | nil => exact Or.inl rfl
  | cons x xs ih =>
    rcases ih (max a x) with h | h
    · rcases max_choice a x with hm | hm
      · exact Or.inl (by rw [List.foldl_cons, h, hm])
      · exact Or.inr (by rw [List.foldl_cons, h, hm]; exact List.mem_cons_self x xs)
    · exact Or.inr (List.mem_cons_of_mem x h)

theorem le_seriesMax (v : ℚ) (l : List ℚ) (hv : v ∈ l) : v ≤ seriesMax l := by
  match l with
  | [] => cases hv
  | x :: xs =>
    rcases List.mem_cons.mp hv with rfl | hv'
    · exact foldl_max_init_le v xs
    · exact foldl_max_mem_le x v xs hv'

theorem seriesMax_mem (l : List ℚ) (hl : l ≠ []) : seriesMax l ∈ l := by
  match l with
  | [] => exact absurd rfl hl
  | x :: xs =>
    show xs.foldl max x ∈ x :: xs
    rcases foldl_max_mem x xs with h | h
    · rw [h]; exact List.mem_cons_self x xs
    · exact List.mem_cons_of_mem x h

/-! ## Rounding bounds -/

theorem round_half_even_le (x : ℚ) : (round_half_even x : ℚ) ≤ x + 1 / 2 := by
  have hfl := Int.floor_le x
  have hfu := Int.lt_floor_add_one x
  simp only [round_half_even]
  split_ifs <;> push_cast <;> linarith

theorem le_round_half_even (x : ℚ) : x - 1 / 2 ≤ (round_half_even x : ℚ) := by
  have hfl := Int.floor_le x
  have hfu := Int.lt_floor_add_one x
  simp only [round_half_even]
  split_ifs <;> push_cast <;> linarith

theorem round2_le (x : ℚ) : round2 x ≤ x + 1 / 200 := by
  have h := round_half_even_le (x * 100)
  simp only [round2]
  linarith

theorem le_round2 (x : ℚ) : x - 1 / 200 ≤ round2 x := by
  have h := le_round_half_even (x * 100)
  simp only [round2]
  linarith

/-! ## City-name normalization: `city.lower().replace(" ", "_")` -/

/-- Python `str.lower()`, per character (core `Char.toLower`; the
repository's city names are basic-latin). -/
def str_lower (s : String) : String :=
  String.mk (s.data.map Char.toLower)

/-- Python `str.replace(" ", "_")`. -/
def replace_space (s : String) : String :=
  String.mk (s.data.map fun c => if c = ' ' then '_' else c)

/-- The normalization applied to city names throughout `api_access.py`:
`city.lower().replace(" ", "_")`. -/
def normalize_city (s : String) : String :=
  replace_space (str_lower s)

/-- The per-character action of `normalize_city`. -/
def normChar (c : Char) : Char :=
  if Char.toLower c = ' ' then '_' else Char.toLower c

theorem char_eq_iff (c d : Char) : c = d ↔ c.toNat = d.toNat := by
  constructor
  · exact fun h => congrArg Char.toNat h
  · intro h
    rw [← Char.ofNat_toNat c, ← Char.ofNat_toNat d, h]

theorem toNat_ofNat_of_valid (m : ℕ) (h : m.isValidChar) : (Char.ofNat m).toNat = m := by
  rw [Char.ofNat, dif_pos h]
  rfl

theorem toLower_eq_ite (c : Char) :
    Char.toLower c = if c.toNat ≥ 65 ∧ c.toNat ≤ 90 then Char.ofNat (c.toNat + 32) else c :=
  rfl

theorem toNat_toLower (c : Char) :
    (Char.toLower c).toNat =
      if c.toNat ≥ 65 ∧ c.toNat ≤ 90 then c.toNat + 32 else c.toNat := by
  rw [toLower_eq_ite]
  split_ifs with h
  · exact toNat_ofNat_of_valid (c.toNat + 32) (Or.inl (by omega))
  · rfl

theorem toLower_toLower (c : Char) :
    Char.toLower (Char.toLower c) = Char.toLower c := by
  rw [char_eq_iff, toNat_toLower, toNat_toLower]
  split_ifs <;> omega

theorem toLower_eq_space_iff (c : Char) : Char.toLower c = ' ' ↔ c = ' ' := by
  rw [char_eq_iff, char_eq_iff]
  have hs : (' ' : Char).toNat = 32 := rfl
  rw [toNat_toLower, hs]
  split_ifs <;> omega

theorem normChar_idem (c : Char) : normChar (normChar c) = normChar c := by
  unfold normChar
  by_cases h1 : Char.toLower c = ' '
  · rw [if_pos h1]
    decide
  · rw [if_neg h1, toLower_toLower, if_neg h1]

theorem normalize_city_data (s : String) :
    (normalize_city s).data = s.data.map normChar := by
  simp only [normalize_city, replace_space, str_lower, List.map_map]
  rfl

theorem normalize_city_idem (s : String) :
    normalize_city (normalize_city s) = normalize_city s := by
  apply String.ext
  rw [normalize_city_data, normalize_city_data, List.map_map]
  exact List.map_congr_left fun c _ => normChar_idem c

/-! ## `get_city_name` (api_access.py 38-47)

`re.search(r"([\w\s]+)_weather\.json", filename).group(1)`, modelled by a
backtracking matcher specialized to this pattern: at each start position
the greedy group `[\w\s]+` tries its longest possible length first and
backtracks until the literal `_weather.json` follows; `re.search` takes
the leftmost position that matches.  `none` models the `AttributeError`
raised when there is no match (`re.search` returns `None`). -/

/-- Regex `\w` (ASCII fragment, as used by the repository's filenames):
letters, digits, underscore. -/
def isWordChar (c : Char) : Bool :=
  decide ((65 ≤ c.toNat ∧ c.toNat ≤ 90) ∨ (97 ≤ c.toNat ∧ c.toNat ≤ 122) ∨
    (48 ≤ c.toNat ∧ c.toNat ≤ 57) ∨ c = '_')

/-- Regex `\s` (ASCII fragment): whitespace. -/
def isSpaceChar (c : Char) : Bool :=
  decide (c = ' ' ∨ c = '\t' ∨ c = '\n' ∨ c = '\r' ∨ c = '\x0b' ∨ c = '\x0c')

/-- The character class `[\w\s]`. -/
def isWordOrSpace (c : Char) : Bool :=
  isWordChar c || isSpaceChar c

/-- Greedy backtracking for the group `([\w\s]+)`: try group length
`k, k-1, …, 1` until the literal `_weather.json` follows the group. -/
def tryGroupLen (s : List Char) : ℕ → Option (List Char)
  | 0 => none
  | g + 1 =>
    if "_weather.json".data.isPrefixOf (s.drop (g + 1)) then some (s.take (g + 1))
    else tryGroupLen s g

/-- Match of `([\w\s]+)_weather\.json` anchored at the head of `s`,
longest group first.  The group can extend at most over the initial run
of `[\w\s]` characters. -/
def matchGroupHere (s : List Char) : Option (List Char) :=
  tryGroupLen s (s.takeWhile isWordOrSpace).length

/-- `re.search`: scan start positions left to right. -/
def searchGroup : List Char → Option (List Char)
  | [] => none
  | c :: rest =>
    match matchGroupHere (c :: rest) with
    | some g => some g
    | none => searchGroup rest

/-- `get_city_name` (api_access.py 38-47).  `none` models the
`AttributeError` crash when the pattern does not match. -/
def get_city_name (filename : String) : Option String :=
  (searchGroup filename.data).map fun l => String.mk l

/-! ## `weather_data_already_saved_for_city` (api_access.py 50-72) -/

/-- Python `haystack.find(needle) != -1`: does `needle` occur as a
contiguous substring of `haystack`? -/
def containsSub (needle : List Char) : List Char → Bool
  | [] => needle.isEmpty
  | c :: rest => needle.isPrefixOf (c :: rest) || containsSub needle rest

/-- `weather_data_already_saved_for_city` (api_access.py 50-72), with the
`weather_files` directory listing passed explicitly.  The function
re-normalizes its argument, then returns `true` iff some filename in the
listing contains the normalized city name as a substring
(`filename.find(city_name) != -1`). -/
def weather_data_already_saved_for_city (city_name : String) (filenames : List String) : Bool :=
  filenames.any fun filename => containsSub (normalize_city city_name).data filename.data

/-! ## Substring and regex lemmas -/

theorem containsSub_iff (needle hay : List Char) :
    containsSub needle hay = true ↔ ∃ l r, hay = l ++ needle ++ r := by
  induction hay with
  | nil =>
    simp only [containsSub, List.isEmpty_iff]
    constructor
    · rintro rfl
      exact ⟨[], [], rfl⟩
    · rintro ⟨l, r, h⟩
      rcases List.append_eq_nil.mp (List.append_eq_nil.mp h.symm).1 with ⟨-, h2⟩
      exact h2
  | cons c rest ih =>
    simp only [containsSub, Bool.or_eq_true, List.isPrefixOf_iff_prefix, ih]
    constructor
    · rintro (⟨t, ht⟩ | ⟨l, r, hr⟩)
      · exact ⟨[], t, by simp [← ht]⟩
      · exact ⟨c :: l, r, by simp [hr]⟩
    · rintro ⟨l, r, h⟩
      match l, h with
      | [], h => exact Or.inl ⟨r, by simpa using h.symm⟩
      | a :: l', h =>
        rw [List.cons_append, List.cons_append, List.cons.injEq] at h
        exact Or.inr ⟨l', r, h.2⟩

theorem takeWhile_append_of_all (p : Char → Bool) (l₁ l₂ : List Char)
    (h : ∀ c ∈ l₁, p c = true) :
    (l₁ ++ l₂).takeWhile p = l₁ ++ l₂.takeWhile p := by
  induction l₁ with
  | nil => rfl
  | cons c t ih =>
    rw [List.cons_append, List.takeWhile_cons, h c (List.mem_cons_self c t),
      ih fun d hd => h d (List.mem_cons_of_mem c hd), List.cons_append, if_pos rfl]

theorem tryGroupLen_found (s : List Char) (n k : ℕ)
    (hpre : "_weather.json".data.isPrefixOf (s.drop n) = true)
    (hlen : s.length = n + 13) (h1 : 1 ≤ n) (hk : n ≤ k) :
    tryGroupLen s k = some (s.take n) := by
  induction k with
  | zero => omega
  | succ k ih =>
    by_cases hkn : k + 1 = n
    · rw [tryGroupLen, hkn, if_pos hpre]
    · have hlt : n ≤ k := by omega
      rw [tryGroupLen, if_neg ?_]
      · exact ih hlt
      · intro hcontra
        have hp := List.isPrefixOf_iff_prefix.mp hcontra
        have hle : 13 ≤ s.length - (k + 1) := by simpa using hp.length_le
        omega

theorem matchGroupHere_norm (n : List Char) (h1 : n ≠ [])
    (hw : ∀ c ∈ n, isWordOrSpace c = true) :
    matchGroupHere (n ++ "_weather.json".data) = some n := by
  unfold matchGroupHere
  rw [takeWhile_append_of_all _ _ _ hw,
    show "_weather.json".data.takeWhile isWordOrSpace = "_weather".data from by decide]
  have hlen8 : (n ++ "_weather".data).length = n.length + 8 := by simp
  rw [hlen8]
  have h := tryGroupLen_found (n ++ "_weather.json".data) n.length (n.length + 8)
    ?_ ?_ ?_ ?_
  · rw [h, List.take_left]
  · rw [List.drop_left]
    exact List.isPrefixOf_iff_prefix.mpr (List.prefix_refl _)
  · simp
  · exact List.length_pos.mpr h1
  · omega

theorem searchGroup_norm (n : List Char) (h1 : n ≠ [])
    (hw : ∀ c ∈ n, isWordOrSpace c = true) :
    searchGroup (n ++ "_weather.json".data) = some n := by
  match n, h1 with
  | c :: n', _ =>
    rw [List.cons_append, searchGroup, ← List.cons_append,
      matchGroupHere_norm (c :: n') (by simp) hw]

theorem isWordChar_normChar (c : Char)
    (h : (65 ≤ c.toNat ∧ c.toNat ≤ 90) ∨ (97 ≤ c.toNat ∧ c.toNat ≤ 122) ∨
      (48 ≤ c.toNat ∧ c.toNat ≤ 57) ∨ c = ' ') :
    isWordChar (normChar c) = true := by
  unfold normChar
  by_cases h1 : Char.toLower c = ' '
  · rw [if_pos h1]
    decide
  · rw [if_neg h1]
    rw [toLower_eq_space_iff, char_eq_iff] at h1
    rw [char_eq_iff] at h
    have hs : (' ' : Char).toNat = 32 := rfl
    rw [hs] at h h1
    simp only [isWordChar, decide_eq_true_eq, toNat_toLower]
    split_ifs <;> omega

/-! ## `lat_lon_of_city` (api_access.py 75-98)

The `while True` retry loop is modelled against an explicit finite trace
of HTTP responses (one per `requests.get`).  Outcome `none` means the
trace was exhausted with the loop still retrying (models the unbounded
blocking retry on a trace of only transient failures). -/

/-- One element of the geocoding response body (`response.json()` is a
list of these). -/
structure GeoResult where
  latitude : ℚ
  longitude : ℚ
deriving Repr

/-- An HTTP response as seen by the retry loop: status code plus parsed
JSON body. -/
structure HttpResponse where
  status_code : ℕ
  body : List GeoResult
deriving Repr

/-- The possible returns of `lat_lon_of_city`: a coordinate pair, the
`(None, None)` sentinel on 404, or an `IndexError` from
`response.json()[0]` on an ok response with an empty body. -/
inductive GeoReturn where
  | coords (latitude longitude : ℚ)
  | sentinel
  | indexError
deriving Repr

/-- The loop of `lat_lon_of_city` (api_access.py 89-98): first component
is the outcome (`none` = still retrying when the trace ran out), second
is the number of requests issued.  `requests.codes.ok` is 200. -/
def lat_lon_loop : List HttpResponse → Option GeoReturn × ℕ
  | [] => (none, 0)
  | r :: rest =>
    if r.status_code = 200 then
      match r.body with
      | [] => (some GeoReturn.indexError, 1)
      | g :: _ => (some (GeoReturn.coords g.latitude g.longitude), 1)
    else if r.status_code = 404 then (some GeoReturn.sentinel, 1)
    else
      let p := lat_lon_loop rest
      (p.1, p.2 + 1)

/-- The statuses on which the loop stops requesting: ok (200) or 404. -/
def stopsRetry (r : HttpResponse) : Bool :=
  decide (r.status_code = 200 ∨ r.status_code = 404)

/-- The URL built by `lat_lon_of_city` (api_access.py 85-88) from the
format string `"…?city={}&country={}{}".format(city, country, city)`.
Python's `if country:` is falsy both for `None` and for `""`. -/
def lat_lon_api_url (city : String) (country : Option String) : String :=
  if country.getD "" ≠ "" then
    "https://api.api-ninjas.com/v1/geocoding?city=" ++ city ++ "&country=" ++
      country.getD "" ++ city
  else
    "https://api.api-ninjas.com/v1/geocoding?city=" ++ city

theorem lat_lon_loop_eq_find (rs : List HttpResponse) :
    (lat_lon_loop rs).1 =
      match rs.find? stopsRetry with
      | none => none
      | some r =>
        if r.status_code = 200 then
          match r.body with
          | [] => some GeoReturn.indexError
          | g :: _ => some (GeoReturn.coords g.latitude g.longitude)
        else some GeoReturn.sentinel := by
  induction rs with
  | nil => rfl
  | cons r rest ih =>
    rw [List.find?_cons]
    by_cases h200 : r.status_code = 200
    · have hs : stopsRetry r = true := by simp [stopsRetry, h200]
      rw [hs]
      simp only [lat_lon_loop, if_pos h200]
      match hb : r.body with
      | [] => simp [h200]
      | g :: gs => simp [h200]
    · by_cases h404 : r.status_code = 404
      · have hs : stopsRetry r = true := by simp [stopsRetry, h404]
        rw [hs]
        simp only [lat_lon_loop, if_neg h200, if_pos h404]
      · have hs : stopsRetry r = false := by simp [stopsRetry, h200, h404]
        rw [hs]
        simp only [lat_lon_loop, if_neg h200, if_neg h404]
        exact ih

theorem lat_lon_loop_skips_junk (junk rest : List HttpResponse)
    (h : ∀ r ∈ junk, r.status_code ≠ 200 ∧ r.status_code ≠ 404) :
    lat_lon_loop (junk ++ rest) =
      ((lat_lon_loop rest).1, junk.length + (lat_lon_loop rest).2) := by
  induction junk with
  | nil => simp
  | cons j t ih =>
    obtain ⟨hj200, hj404⟩ := h j (List.mem_cons_self j t)
    have ht := fun r hr => h r (List.mem_cons_of_mem j hr)
    rw [List.cons_append]
    simp only [lat_lon_loop, if_neg hj200, if_neg hj404, ih ht]
    simp only [Prod.mk.injEq, List.length_cons]
    exact ⟨trivial, by omega⟩


/-! ## `request_from_weather_api` (api_access.py 101-134) -/

/-- The observable state touched by `request_from_weather_api`: the
filenames in the `weather_files` cache directory and the number of
geocoding and weather-archive requests issued so far. -/
structure FetchState where
  cache : List String
  geoRequests : ℕ
  weatherRequests : ℕ
deriving DecidableEq, Repr

/-- How a call of `request_from_weather_api` ends: normal return, the
geocoding retry loop still spinning when its response trace ran out, or
a propagated `IndexError` from `lat_lon_of_city`. -/
inductive FetchOutcome where
  | ok (st : FetchState)
  | hang (st : FetchState)
  | crash (st : FetchState)
deriving DecidableEq, Repr

/-- `request_from_weather_api` (api_access.py 101-134) as a state
transformer.  Faithful to the source: after `lat_lon_of_city` returns —
whether a coordinate pair or the unchecked `(None, None)` sentinel from a
404 (line 94) — the function proceeds to lines 123-134: it builds the
archive URL (with `latitude=None&longitude=None` in the sentinel case,
which `urllib.parse.urlencode(…, doseq=True)` renders as the string
`None`), issues one weather request, and writes the cache file
`<normalized_city>_weather.json`.  The weather response body is JSON,
recorded here only as the new filename in the cache. -/
def request_from_weather_api (city : String) (geoResponses : List HttpResponse)
    (st : FetchState) : FetchOutcome :=
  if weather_data_already_saved_for_city (normalize_city city) st.cache then
    FetchOutcome.ok st
  else
    match lat_lon_loop geoResponses with
    | (none, n) => FetchOutcome.hang { st with geoRequests := st.geoRequests + n }
    | (some GeoReturn.indexError, n) =>
      FetchOutcome.crash { st with geoRequests := st.geoRequests + n }
    | (some _, n) =>
      FetchOutcome.ok
        { cache := st.cache ++ [normalize_city city ++ "_weather.json"]
          geoRequests := st.geoRequests + n
          weatherRequests := st.weatherRequests + 1 }

/-! ## Database loader (handle_database.py)

The `Attractions` database is modelled by the rows of the five tables
touched by `populate_tables`.  `conn.commit()` points in the source are
immaterial here because every statement that can fail (the existence
checks) runs before any uncommitted insert of the current loop step, so
the committed state always coincides with the state reached so far. -/

/-- One row of the attraction dataframe consumed by `populate_tables`
(columns `City`, `Name`, `Url`, `Popular Mentions`, `Tripadvisor rank`,
`Reviewers#`, `Excellent`, `Very good`, `Average`, `Poor`, `Terrible`). -/
structure AttractionRow where
  city : String
  name : String
  url : String
  popular_mentions : List String
  tripadvisor_rank : ℤ
  num_reviewers : ℤ
  excellent : ℤ
  very_good : ℤ
  average : ℤ
  poor : ℤ
  terrible : ℤ
deriving DecidableEq, Repr

/-- A row of the `attractions` table: name, the city name its insert
resolves to `city_id` via subquery, and url. -/
structure AttractionsTableRow where
  name : String
  city : String
  url : String
deriving DecidableEq, Repr

/-- A row of the `attraction_stats` table: the attraction name its
insert resolves to `attraction_id` via subquery, plus the eight numeric
columns of the INSERT statement. -/
structure StatsTableRow where
  attraction_name : String
  ranking : ℤ
  num_reviewers : ℤ
  excellent_review : ℤ
  very_good_review : ℤ
  average_review : ℤ
  poor_review : ℤ
  terrible_review : ℤ
deriving DecidableEq, Repr

/-- A row of the `popular_mentions_attractions` join table, with both
subquery keys kept by name. -/
structure MentionLinkRow where
  attraction_name : String
  popular_mention : String
deriving DecidableEq, Repr

/-- The tables of the `Attractions` database that `populate_tables`
touches. -/
structure DB where
  cities : List String
  attractions : List AttractionsTableRow
  attraction_stats : List StatsTableRow
  popular_mentions : List String
  popular_mentions_attractions : List MentionLinkRow
deriving DecidableEq, Repr

/-- `already_recorded` (handle_database.py 122-135): executes
`SELECT * FROM {data_table} WHERE name="{var}"` on a fresh connection
(so it sees only committed rows).  `cities` and `attractions` have a
`name` column.  `popular_mentions` does not (its columns are `id` and
`popular_mention`, handle_database.py 42-46), so MySQL rejects the query
with error 1054 (unknown column `name`), which pymysql raises — modelled
as `Except.error`.  (The commented-out predecessor
`popular_mention_already_recorded`, lines 168-180, queried the correct
column; the generic rewrite regressed it.)  Likewise any other table
name errors: `meteorological_data` is never created — its CREATE script,
lines 57-64, creates `attraction_stats` instead — and has no `name`
column in any case. -/
def already_recorded (var : String) (data_table : String) (db : DB) : Except Unit Bool :=
  if data_table = "cities" then
    Except.ok (db.cities.any fun name => name = var)
  else if data_table = "attractions" then
    Except.ok (db.attractions.any fun a => a.name = var)
  else
    Except.error ()

/-- The inner loop of `populate_tables` over an attraction's popular
mentions (handle_database.py 230-237).  The Boolean records whether the
loop raised (it always does on the first mention, because the existence
check against `popular_mentions` errors before any insert). -/
def popular_mentions_loop (attraction_name : String) :
    List String → DB → DB × Bool
  | [], db => (db, false)
  | m :: ms, db =>
    match already_recorded m "popular_mentions" db with
    | Except.error _ => (db, true)
    | Except.ok true =>
      popular_mentions_loop attraction_name ms
        { db with popular_mentions_attractions :=
            db.popular_mentions_attractions ++ [⟨attraction_name, m⟩] }
    | Except.ok false =>
      popular_mentions_loop attraction_name ms
        { db with
          popular_mentions := db.popular_mentions ++ [m]
          popular_mentions_attractions :=
            db.popular_mentions_attractions ++ [⟨attraction_name, m⟩] }

/-- `populate_tables` (handle_database.py 205-238): iterate over the
attraction rows; skip an attraction already recorded (by name), insert
its city if new, insert the attraction and stats rows, then process its
popular mentions.  The Boolean records whether the call raised; the
returned database is the committed state at that point. -/
def populate_tables : List AttractionRow → DB → DB × Bool
  | [], db => (db, false)
  | a :: rest, db =>
    match already_recorded a.name "attractions" db with
    | Except.error _ => (db, true)
    | Except.ok true => populate_tables rest db
    | Except.ok false =>
      match already_recorded a.city "cities" db with
      | Except.error _ => (db, true)
      | Except.ok cityRecorded =>
        let db1 := if cityRecorded then db else { db with cities := db.cities ++ [a.city] }
        let db2 :=
          { db1 with
            attractions := db1.attractions ++ [⟨a.name, a.city, a.url⟩]
            attraction_stats := db1.attraction_stats ++
              [⟨a.name, a.tripadvisor_rank, a.num_reviewers, a.excellent,
                a.very_good, a.average, a.poor, a.terrible⟩] }
        match popular_mentions_loop a.name a.popular_mentions db2 with
        | (db3, true) => (db3, true)
        | (db3, false) => populate_tables rest db3

/-! ## Claims -/

/-- C1: for every daily series with the four columns, `get_annual_data`
returns exactly the column aggregates — a minimum of the
`temperature_2m_min` column (an element that is a lower bound), the
maximum of `temperature_2m_max`, the mean (sum / length) of
`temperature_2m_mean` and the sum of `precipitation_sum` — each rounded
to 2 decimal places.  The concrete scenario of the claim is the witness
below. -/
theorem c1_get_annual_data_aggregates (df : DailyDataDf)
    (hmin : df.temperature_2m_min ≠ []) (hmax : df.temperature_2m_max ≠ []) :
    (∃ m ∈ df.temperature_2m_min, (∀ v ∈ df.temperature_2m_min, m ≤ v) ∧
      (get_annual_data df).min_temp = round2 m) ∧
    (∃ M ∈ df.temperature_2m_max, (∀ v ∈ df.temperature_2m_max, v ≤ M) ∧
      (get_annual_data df).max_temp = round2 M) ∧
    (get_annual_data df).mean_temp =
      round2 (df.temperature_2m_mean.sum / df.temperature_2m_mean.length) ∧
    (get_annual_data df).total_precipitation = round2 df.precipitation_sum.sum := by
  refine ⟨⟨seriesMin df.temperature_2m_min, seriesMin_mem _ hmin,
      fun v hv => seriesMin_le v _ hv, rfl⟩,
    ⟨seriesMax df.temperature_2m_max, seriesMax_mem _ hmax,
      fun v hv => le_seriesMax v _ hv, rfl⟩, ?_, ?_⟩
  · show round2 (seriesMean df.temperature_2m_mean) = _
    rw [seriesMean, seriesSum_eq_sum]
  · show round2 (seriesSum df.precipitation_sum) = _
    rw [seriesSum_eq_sum]

/-- Witness for C1, at the claim's concrete scenario: the four columns
[10.0, 5.5, 12.1], [20.0, 22.3, 18.0], [15.0, 14.0, 15.5],
[0.0, 2.5, 1.0] produce exactly {min_temp 5.5, max_temp 22.3,
mean_temp 14.83, total_precipitation 3.5}. -/
theorem c1_get_annual_data_aggregates_witness :
    (∃ m ∈ [(10 : ℚ), 5.5, 12.1], (∀ v ∈ [(10 : ℚ), 5.5, 12.1], m ≤ v) ∧
      (get_annual_data ⟨[10, 5.5, 12.1], [20, 22.3, 18], [15, 14, 15.5],
        [0, 2.5, 1]⟩).min_temp = round2 m) ∧
    get_annual_data ⟨[10, 5.5, 12.1], [20, 22.3, 18], [15, 14, 15.5], [0, 2.5, 1]⟩ =
      ⟨5.5, 22.3, 14.83, 3.5⟩ := by
  refine ⟨(c1_get_annual_data_aggregates
    ⟨[10, 5.5, 12.1], [20, 22.3, 18], [15, 14, 15.5], [0, 2.5, 1]⟩
    (by simp) (by simp)).1, ?_⟩
  norm_num [get_annual_data, seriesMin, seriesMax, seriesMean, seriesSum, round2,
    round_half_even]

/-- C6 counterexample: the claim "min_temp is less than or equal to every
value in the temperature_2m_min column" fails, because `get_annual_data`
rounds: on the single-row column [0.006] the rounded minimum is 0.01,
which exceeds the column value 0.006. -/
theorem c6_counterexample :
    ¬ (get_annual_data ⟨[0.006], [0.006], [0.006], [0.006]⟩).min_temp ≤ 0.006 := by
  norm_num [get_annual_data, seriesMin, round2, round_half_even]

/-- C6 amended: the returned min_temp exceeds no column value by more
than the rounding tolerance 0.005 (= 1/200), and the returned max_temp
falls short of no column value by more than 0.005. -/
theorem c6_min_max_within_rounding (df : DailyDataDf) :
    (∀ v ∈ df.temperature_2m_min, (get_annual_data df).min_temp ≤ v + 1 / 200) ∧
    (∀ v ∈ df.temperature_2m_max, v - 1 / 200 ≤ (get_annual_data df).max_temp) := by
  constructor
  · intro v hv
    have h1 : (get_annual_data df).min_temp = round2 (seriesMin df.temperature_2m_min) := rfl
    have h2 := round2_le (seriesMin df.temperature_2m_min)
    have h3 := seriesMin_le v _ hv
    rw [h1]
    linarith
  · intro v hv
    have h1 : (get_annual_data df).max_temp = round2 (seriesMax df.temperature_2m_max) := rfl
    have h2 := le_round2 (seriesMax df.temperature_2m_max)
    have h3 := le_seriesMax v _ hv
    rw [h1]
    linarith

/-- C7: for every non-empty city name made of letters, digits and spaces
(ASCII, per the filenames the repository produces), extracting the city
name from the cache filename built from the normalized name returns that
normalized name: `get_city_name (normalize_city name ++ "_weather.json")
= some (normalize_city name)`.  The Buenos Aires instance of the claim
is the witness below. -/
theorem c7_filename_roundtrip (name : String) (hne : name ≠ "")
    (hchars : ∀ c ∈ name.data, (65 ≤ c.toNat ∧ c.toNat ≤ 90) ∨
      (97 ≤ c.toNat ∧ c.toNat ≤ 122) ∨ (48 ≤ c.toNat ∧ c.toNat ≤ 57) ∨ c = ' ') :
    get_city_name (normalize_city name ++ "_weather.json") =
      some (normalize_city name) := by
  unfold get_city_name
  rw [String.data_append, searchGroup_norm]
  · rfl
  · rw [normalize_city_data]
    intro hcon
    have hnil : name.data = [] := List.map_eq_nil_iff.mp hcon
    exact hne (String.ext hnil)
  · rw [normalize_city_data]
    intro c hc
    obtain ⟨a, ha, rfl⟩ := List.mem_map.mp hc
    have hw := isWordChar_normChar a (hchars a ha)
    simp [isWordOrSpace, hw]

/-- Witness for C7: "Buenos Aires" normalizes to "buenos_aires", the
cache filename is "buenos_aires_weather.json", and city-name extraction
from that filename returns "buenos_aires". -/
theorem c7_filename_roundtrip_witness :
    normalize_city "Buenos Aires" ++ "_weather.json" = "buenos_aires_weather.json" ∧
    get_city_name "buenos_aires_weather.json" = some "buenos_aires" := by
  have h := c7_filename_roundtrip "Buenos Aires" (by decide) (by decide)
  refine ⟨by decide, ?_⟩
  rw [show ("buenos_aires_weather.json" : String) =
      normalize_city "Buenos Aires" ++ "_weather.json" from by decide, h,
    show normalize_city "Buenos Aires" = "buenos_aires" from by decide]

/-- C8: `weather_data_already_saved_for_city` returns true iff some
filename of the cache-directory listing contains the normalized
(lowercased, underscored) city name as a contiguous substring; in
particular it returns true for "paris" when the listing holds only
"paris2_weather.json". -/
theorem c8_substring_cache_check :
    (∀ (city_name : String) (filenames : List String),
      weather_data_already_saved_for_city city_name filenames = true ↔
        ∃ f ∈ filenames, ∃ l r, f.data = l ++ (normalize_city city_name).data ++ r) ∧
    weather_data_already_saved_for_city "paris" ["paris2_weather.json"] = true := by
  refine ⟨fun city_name filenames => ?_, by decide⟩
  simp only [weather_data_already_saved_for_city, List.any_eq_true, containsSub_iff]

/-- C10 counterexample: the claim quantifies over every non-None
country, but Python's `if country:` is also falsy for the empty string,
so for country = "" the URL is built without any country parameter and
the claimed shape fails. -/
theorem c10_counterexample :
    ¬ lat_lon_api_url "x" (some "") =
      "https://api.api-ninjas.com/v1/geocoding?city=" ++ "x" ++ "&country=" ++
        "" ++ "x" := by
  decide

/-- C10 amended: for every call with a non-None, non-empty country, the
request URL appends the city name directly after the country value —
the query string is "city=" + city + "&country=" + country + city, so
the country parameter sent is the concatenation of country and city. -/
theorem c10_url_appends_city_to_country (city country : String) (h : country ≠ "") :
    lat_lon_api_url city (some country) =
      "https://api.api-ninjas.com/v1/geocoding?city=" ++ city ++ "&country=" ++
        country ++ city := by
  unfold lat_lon_api_url
  rw [if_pos]
  · rfl
  · simpa using h

/-- Witness for C10: city "madrid", country "spain" yields a URL whose
country parameter is "spainmadrid". -/
theorem c10_url_appends_city_to_country_witness :
    lat_lon_api_url "madrid" (some "spain") =
      "https://api.api-ninjas.com/v1/geocoding?city=madrid&country=spainmadrid" := by
  rw [c10_url_appends_city_to_country "madrid" "spain" (by decide)]
  decide

/-- C2: over every finite trace of HTTP responses, `lat_lon_of_city`
(1) produces the (None, None) sentinel iff the first response whose
status is ok (200) or 404 is a 404; (2) on an ok response returns the
latitude/longitude of the first element of the body; (3) consumes any
prefix of responses with other statuses transparently, issuing one more
request per response with no cap — the retry loop's outcome over
junk ++ rest equals its outcome over rest, with the request count
increased by the junk length. -/
theorem c2_lat_lon_retry_semantics :
    (∀ rs : List HttpResponse,
      (lat_lon_loop rs).1 = some GeoReturn.sentinel ↔
        ∃ r, rs.find? stopsRetry = some r ∧ r.status_code = 404) ∧
    (∀ (rs : List HttpResponse) (r : HttpResponse) (g : GeoResult) (gs : List GeoResult),
      rs.find? stopsRetry = some r → r.status_code = 200 → r.body = g :: gs →
      (lat_lon_loop rs).1 = some (GeoReturn.coords g.latitude g.longitude)) ∧
    (∀ junk rest : List HttpResponse,
      (∀ r ∈ junk, r.status_code ≠ 200 ∧ r.status_code ≠ 404) →
      lat_lon_loop (junk ++ rest) =
        ((lat_lon_loop rest).1, junk.length + (lat_lon_loop rest).2)) := by
  refine ⟨fun rs => ?_, fun rs r g gs hf h200 hb => ?_, lat_lon_loop_skips_junk⟩
  · rw [lat_lon_loop_eq_find]
    cases hf : rs.find? stopsRetry with
    | none => simp
    | some r =>
      by_cases h200 : r.status_code = 200
      · cases hb : r.body with
        | nil => simp [h200, hb]
        | cons g gs => simp [h200, hb]
      · have hp := List.find?_some hf
        simp only [stopsRetry, decide_eq_true_eq] at hp
        have h404 : r.status_code = 404 := by tauto
        simp [h200, h404]
  · rw [lat_lon_loop_eq_find, hf]
    simp [h200, hb]

/-- C9: whenever the first retry-stopping response is ok (200) with an
empty JSON body, `lat_lon_of_city` ends in the IndexError from
`response.json()[0]`: it produces neither the sentinel nor any
coordinate pair. -/
theorem c9_empty_body_index_error (rs : List HttpResponse) (r : HttpResponse)
    (hf : rs.find? stopsRetry = some r) (h200 : r.status_code = 200)
    (hb : r.body = []) :
    (lat_lon_loop rs).1 = some GeoReturn.indexError ∧
    (lat_lon_loop rs).1 ≠ some GeoReturn.sentinel ∧
    ∀ la lo : ℚ, (lat_lon_loop rs).1 ≠ some (GeoReturn.coords la lo) := by
  have h : (lat_lon_loop rs).1 = some GeoReturn.indexError := by
    rw [lat_lon_loop_eq_find, hf]
    simp [h200, hb]
  exact ⟨h, by rw [h]; simp, fun la lo => by rw [h]; simp⟩

/-- Witness for C9: one transient failure followed by an ok response
with an empty body ends in the IndexError outcome. -/
theorem c9_empty_body_index_error_witness :
    (lat_lon_loop [⟨500, []⟩, ⟨200, []⟩]).1 = some GeoReturn.indexError :=
  (c9_empty_body_index_error [⟨500, []⟩, ⟨200, []⟩] ⟨200, []⟩ rfl rfl rfl).1

/-- C3 (evaluation at the claim's failing input): the claim says that
after a geocoding 404 for an uncached city ("Atlantis"), no weather
request is made and no cache file is written.  The source never checks
the (None, None) sentinel (api_access.py 117-134): it proceeds to build
the archive URL, issues the weather request (weatherRequests becomes 1)
and writes atlantis_weather.json into the previously empty cache. -/
theorem c3_fetches_despite_geocoder_404 :
    request_from_weather_api "Atlantis" [⟨404, []⟩] ⟨[], 0, 0⟩ =
      FetchOutcome.ok ⟨["atlantis_weather.json"], 1, 1⟩ := by
  decide

/-- C5: for every city whose normalized name matches no cached filename,
after a first call in which geocoding succeeds, the state holds exactly
one cache file containing the normalized name, and a second call for the
same city returns that state unchanged — in particular it issues no
geocoding and no weather request (both counters are untouched),
regardless of the response trace offered to it. -/
theorem c5_fetch_idempotent (city : String) (st : FetchState)
    (geo1 geo2 : List HttpResponse) (la lo : ℚ) (n : ℕ)
    (hfresh : weather_data_already_saved_for_city (normalize_city city) st.cache = false)
    (hgeo : lat_lon_loop geo1 = (some (GeoReturn.coords la lo), n)) :
    request_from_weather_api city geo1 st =
      FetchOutcome.ok ⟨st.cache ++ [normalize_city city ++ "_weather.json"],
        st.geoRequests + n, st.weatherRequests + 1⟩ ∧
    request_from_weather_api city geo2
        ⟨st.cache ++ [normalize_city city ++ "_weather.json"],
          st.geoRequests + n, st.weatherRequests + 1⟩ =
      FetchOutcome.ok ⟨st.cache ++ [normalize_city city ++ "_weather.json"],
        st.geoRequests + n, st.weatherRequests + 1⟩ ∧
    ((st.cache ++ [normalize_city city ++ "_weather.json"]).filter
        (fun f => containsSub (normalize_city city).data f.data)).length = 1 := by
  have hsub : containsSub (normalize_city city).data
      (normalize_city city ++ "_weather.json").data = true := by
    rw [containsSub_iff]
    exact ⟨[], "_weather.json".data, by rw [String.data_append, List.nil_append]⟩
  have hsaved : weather_data_already_saved_for_city (normalize_city city)
      (st.cache ++ [normalize_city city ++ "_weather.json"]) = true := by
    unfold weather_data_already_saved_for_city
    rw [List.any_eq_true]
    refine ⟨normalize_city city ++ "_weather.json",
      List.mem_append_right _ (List.mem_singleton.mpr rfl), ?_⟩
    rw [normalize_city_idem]
    exact hsub
  refine ⟨?_, ?_, ?_⟩
  · unfold request_from_weather_api
    rw [hfresh, hgeo]
    rfl
  · unfold request_from_weather_api
    rw [hsaved]
    rfl
  · rw [List.filter_append]
    have hnil : st.cache.filter
        (fun f => containsSub (normalize_city city).data f.data) = [] := by
      rw [List.filter_eq_nil_iff]
      intro f hf
      unfold weather_data_already_saved_for_city at hfresh
      rw [normalize_city_idem] at hfresh
      rw [List.any_eq_false] at hfresh
      simpa using hfresh f hf
    rw [hnil, List.nil_append, List.filter_cons, hsub]
    rfl

/-- Witness for C5: a fresh fetch of "Buenos Aires" with one successful
geocoding response yields exactly the cache file
buenos_aires_weather.json and one geocoding and one weather request; the
second call returns the same state untouched. -/
theorem c5_fetch_idempotent_witness :
    request_from_weather_api "Buenos Aires" [⟨200, [⟨1, 2⟩]⟩] ⟨[], 0, 0⟩ =
      FetchOutcome.ok ⟨["buenos_aires_weather.json"], 1, 1⟩ ∧
    request_from_weather_api "Buenos Aires" [] ⟨["buenos_aires_weather.json"], 1, 1⟩ =
      FetchOutcome.ok ⟨["buenos_aires_weather.json"], 1, 1⟩ ∧
    (["buenos_aires_weather.json"].filter
      (fun f => containsSub (normalize_city "Buenos Aires").data f.data)).length = 1 := by
  have h := c5_fetch_idempotent "Buenos Aires" ⟨[], 0, 0⟩ [⟨200, [⟨1, 2⟩]⟩] [] 1 2 1
    (by decide) rfl
  rw [show normalize_city "Buenos Aires" = "buenos_aires" from by decide] at h
  exact ⟨h.1, h.2.1, h.2.2⟩

/-- The two-attraction input used to exhibit the defect behind C4. -/
def c4_rows : List AttractionRow :=
  [⟨"paris", "louvre", "u1", ["art"], 1, 100, 50, 30, 10, 5, 5⟩,
   ⟨"paris", "eiffel", "u2", ["view"], 2, 200, 80, 60, 30, 20, 10⟩]

/-- The empty `Attractions` database. -/
def emptyDB : DB := ⟨[], [], [], [], []⟩

/-- C4 (evaluation at the failing input): with two attractions that have
popular mentions, the first `populate_tables` run raises (the existence
check `SELECT * FROM popular_mentions WHERE name=…` hits a nonexistent
column) after committing only the first attraction, and the second run
with the same table then inserts the second attraction's rows — new rows
in `attractions`, contradicting the claim that a second run inserts
nothing.  (No duplicates arise, and `popular_mentions` stays empty in
both runs because its guard errors before any insert.) -/
theorem c4_second_run_inserts_new_rows :
    (populate_tables c4_rows emptyDB).2 = true ∧
    (populate_tables c4_rows emptyDB).1.attractions = [⟨"louvre", "paris", "u1"⟩] ∧
    (populate_tables c4_rows (populate_tables c4_rows emptyDB).1).2 = true ∧
    (populate_tables c4_rows (populate_tables c4_rows emptyDB).1).1.attractions =
      [⟨"louvre", "paris", "u1"⟩, ⟨"eiffel", "paris", "u2"⟩] ∧
    (populate_tables c4_rows (populate_tables c4_rows emptyDB).1).1.popular_mentions =
      [] := by
  decide
